import Mathlib

/-
Verification of the HedgeBot specification against the repository.

The repository's inspected source under src/ is the React presentation layer
(Dashboard, Positions, Delta, Tasks, Config components).  The backend core --
the adaptive task scheduler and the delta/hedge decision engine -- is not
present under src/; the spec itself records (section 2 and section 9) that the
backend is reconstructed from its observable contract.  Definitions for the
backend are therefore modelled from the spec and each such definition says so
in its doc comment.  The frontend computations (Tasks.jsx) are embedded
directly from the source.

Dollar amounts, balances and prices are modelled over the rationals.
-/

namespace HedgeBot

/-- Modelled from the spec: one token leg of an LP position (symbol, balance,
USD price; `usdValue` is derived).  The backend data model (spec section 3) is
missing from src/, which ships only the presentation layer. -/
structure TokenLeg where
  symbol : String
  balance : ℚ
  priceUsd : ℚ
  deriving DecidableEq

/-- Derived per spec section 3: a leg's USD value is balance times price. -/
def TokenLeg.usdValue (t : TokenLeg) : ℚ := t.balance * t.priceUsd

/-- Modelled from the spec: one LP position (spec section 3), restricted to
the fields the decision engine reads (token legs, uncollected fees, current
tick for range-status confidence).  Identity and pool metadata are omitted as
the engine does not consume them. -/
structure Position where
  token0 : TokenLeg
  token1 : TokenLeg
  uncollectedFees0 : ℚ
  uncollectedFees1 : ℚ
  currentTick : Option Int
  tickLower : Int
  tickUpper : Int
  deriving DecidableEq

/-- Derived per spec section 3: sum of both legs' USD values plus the USD
value of the uncollected fees. -/
def Position.totalUsdValue (p : Position) : ℚ :=
  p.token0.usdValue + p.token1.usdValue
    + p.uncollectedFees0 * p.token0.priceUsd + p.uncollectedFees1 * p.token1.priceUsd

/-- Modelled from the spec: the configuration the decision engine consumes
(spec section 6): the designated hedge-target token, the delta threshold, and
the value of any existing offsetting hedge position (zero if none tracked,
spec section 4.2 step 2). -/
structure EngineConfig where
  hedgeToken : String
  deltaThreshold : ℚ
  existingHedgeValue : ℚ
  deriving DecidableEq

/-- Modelled from the spec (section 4.2 step 1): the signed dollar exposure a
single position contributes to the given token symbol: balance plus the
corresponding uncollected fees, times the token's USD price, for each leg
whose symbol matches. -/
def legExposure (sym : String) (p : Position) : ℚ :=
  (if p.token0.symbol = sym then (p.token0.balance + p.uncollectedFees0) * p.token0.priceUsd
   else 0)
  + (if p.token1.symbol = sym then (p.token1.balance + p.uncollectedFees1) * p.token1.priceUsd
     else 0)

/-- Modelled from the spec (section 4.2 step 1): total signed dollar exposure
to a token symbol across all positions. -/
def tokenExposure (ps : List Position) (sym : String) : ℚ :=
  (ps.map (legExposure sym)).sum

/-- Modelled from the spec (section 4.2 step 2): net delta is the exposure of
the designated hedge-target token minus any existing offsetting hedge value. -/
def netDelta (cfg : EngineConfig) (ps : List Position) : ℚ :=
  tokenExposure ps cfg.hedgeToken - cfg.existingHedgeValue

/-- Modelled from the spec (section 4.2 step 3): sum of `totalUsdValue` across
positions. -/
def totalLpValue (ps : List Position) : ℚ :=
  (ps.map Position.totalUsdValue).sum

/-- Clamp a rational to the closed interval from 0 to 1. -/
def clamp01 (q : ℚ) : ℚ := max 0 (min 1 q)

/-- Number of positions whose current tick is unknown (range status unknown). -/
def unknownTickCount (ps : List Position) : Nat :=
  (ps.filter (fun p => p.currentTick.isNone)).length

/-- Modelled from the spec (section 4.2 step 4): confidence is 0 when there
are no positions; otherwise 1.0 reduced by a penalty for positions with
unknown `currentTick` (here: their fraction) and by the staleness ratio of the
price refresh (age divided by base interval, capped at 1.0), clamped to the
interval from 0 to 1.  The exact penalty weights are reconstructed (spec
section 9 marks them an open question); the clamping and the empty-set case
follow the spec's words. -/
def confidence (ps : List Position) (stalenessRatio : ℚ) : ℚ :=
  if ps.isEmpty then 0
  else clamp01 (1 - (unknownTickCount ps : ℚ) / (ps.length : ℚ) - min stalenessRatio 1)

/-- Hedge direction. -/
inductive Direction where
  | buy
  | sell
  deriving DecidableEq

/-- Modelled from the spec: the decision engine's output record (spec
section 3).  The hedge fields are populated only when a hedge is needed. -/
structure DeltaSnapshot where
  totalLpValue : ℚ
  netDelta : ℚ
  token0Exposure : ℚ
  token1Exposure : ℚ
  hedgeNeeded : Bool
  hedgeToken : Option String
  hedgeAmount : ℚ
  hedgeDirection : Option Direction
  confidence : ℚ
  deriving DecidableEq

/-- Exposure of the token0 symbol of the first position (0 when there are no
positions); used for the per-token exposure fields of the snapshot. -/
def headToken0Exposure (ps : List Position) : ℚ :=
  match ps.head? with
  | some p => tokenExposure ps p.token0.symbol
  | none => 0

/-- Exposure of the token1 symbol of the first position (0 when there are no
positions). -/
def headToken1Exposure (ps : List Position) : ℚ :=
  match ps.head? with
  | some p => tokenExposure ps p.token1.symbol
  | none => 0

/-- Modelled from the spec (section 4.2 steps 1 to 6): the decision engine's
computation of a `DeltaSnapshot` from the position set, the staleness ratio of
the price refresh, and the configuration.  `hedgeNeeded` holds exactly when
the absolute net delta exceeds the threshold; when it holds, the hedge amount
is the absolute net delta, the direction is sell for positive delta and buy
for negative, and the hedge token is the configured hedge-target token. -/
def computeSnapshot (cfg : EngineConfig) (ps : List Position) (stalenessRatio : ℚ) :
    DeltaSnapshot :=
  let nd := netDelta cfg ps
  let needed : Bool := decide (cfg.deltaThreshold < abs nd)
  { totalLpValue := totalLpValue ps
    netDelta := nd
    token0Exposure := headToken0Exposure ps
    token1Exposure := headToken1Exposure ps
    hedgeNeeded := needed
    hedgeToken := if needed then some cfg.hedgeToken else none
    hedgeAmount := if needed then abs nd else 0
    hedgeDirection := if needed then some (if 0 < nd then Direction.sell else Direction.buy)
                      else none
    confidence := confidence ps stalenessRatio }

/-- Modelled from the spec (section 7): the error taxonomy entry reaching the
decision engine: invoked before any successful refresh. -/
inductive EngineError where
  | dataUnavailable
  deriving DecidableEq

/-- Modelled from the spec: the process-wide published state the decision
engine reads and writes (spec section 2): the position cache (absent until a
first successful refresh) and the latest published snapshot. -/
structure BotState where
  positionCache : Option (List Position)
  publishedSnapshot : Option DeltaSnapshot
  deriving DecidableEq

/-- Modelled from the spec (sections 4.2 and 7): the delta-recompute step.
With no cached positions it fails with `DataUnavailableError` and publishes
nothing; otherwise it computes a snapshot and publishes it by wholesale
replacement. -/
def recomputeDelta (cfg : EngineConfig) (stalenessRatio : ℚ) (st : BotState) :
    BotState × Except EngineError DeltaSnapshot :=
  match st.positionCache with
  | none => (st, Except.error EngineError.dataUnavailable)
  | some ps =>
      let snap := computeSnapshot cfg ps stalenessRatio
      ({ st with publishedSnapshot := some snap }, Except.ok snap)

/-- Scenario A of the spec (section 8): a single position with token0 ETH,
balance 2.0 at price 2500, and token1 USDC, balance 5000 at price 1, no
uncollected fees. -/
def scenarioAPosition : Position :=
  { token0 := { symbol := "ETH", balance := 2, priceUsd := 2500 }
    token1 := { symbol := "USDC", balance := 5000, priceUsd := 1 }
    uncollectedFees0 := 0
    uncollectedFees1 := 0
    currentTick := some 100
    tickLower := 0
    tickUpper := 200 }

/-- Scenario A configuration: hedge-target token ETH, threshold 50 dollars,
no existing hedge tracked. -/
def scenarioAConfig : EngineConfig :=
  { hedgeToken := "ETH", deltaThreshold := 50, existingHedgeValue := 0 }

/-- Modelled from the spec: the per-task bookkeeping record of the adaptive
scheduler (spec section 3, Task).  The scheduler itself is missing from src/,
which ships only the presentation layer.  `inflight` is the number of
invocations of the task currently executing, the observable the overlap
invariant speaks about (`running` is the flag the loop maintains). -/
structure TaskSt where
  running : Bool
  inflight : Nat
  successCount : Nat
  errorCount : Nat
  lastRun : Option Nat
  lastError : Option String
  averageDurationSeconds : ℚ
  baseIntervalSeconds : ℚ
  currentIntervalSeconds : ℚ
  deriving DecidableEq

/-- Modelled from the spec: the state of a task as created at scheduler start
from configuration (no run yet, not running, zero counts). -/
def initTask (baseIvl : ℚ) : TaskSt :=
  { running := false
    inflight := 0
    successCount := 0
    errorCount := 0
    lastRun := none
    lastError := none
    averageDurationSeconds := 0
    baseIntervalSeconds := baseIvl
    currentIntervalSeconds := baseIvl }

/-- Labels of the per-task loop transitions (spec section 4.1, loop steps 2
through 8).  A completed tick carries the wall-clock time `now`, for failures
the failure message, for successes the measured duration, and the adapted
interval `ivl` chosen by step 8 (the adaptation rule itself is an open
question per spec section 9, so the adapted value is carried as data). -/
inductive TLbl where
  | skipped
  | began
  | completedSuccess (now : Nat) (dur : ℚ) (ivl : ℚ)
  | completedFailure (now : Nat) (msg : String) (ivl : ℚ)
  deriving DecidableEq

/-- A label that completes a tick (success or failure); a skipped tick and the
mere beginning of an invocation complete nothing. -/
def TLbl.isCompleted : TLbl → Bool
  | .completedSuccess _ _ _ => true
  | .completedFailure _ _ _ => true
  | _ => false

/-- Modelled from the spec (section 4.1, per-task loop): the labelled
transition relation of one task's state.
A tick that finds the previous invocation still running is skipped entirely,
changing nothing.  Beginning an invocation requires `running = false` and sets
it, adding one invocation in flight.  A success increments `successCount`,
sets `lastRun`, clears `lastError` and updates the running mean of durations
over all successes; a failure or timeout increments `errorCount`, sets
`lastError` to the failure message and `lastRun` to now, and leaves
`averageDurationSeconds` unchanged.  Both ends of a tick clear `running`; the
task is never removed, so it remains scheduled after any outcome. -/
inductive TStep : TLbl → TaskSt → TaskSt → Prop where
  | skipped (s : TaskSt) (h : s.running = true) : TStep TLbl.skipped s s
  | began (s : TaskSt) (h : s.running = false) :
      TStep TLbl.began s { s with running := true, inflight := s.inflight + 1 }
  | completedSuccess (s : TaskSt) (now : Nat) (dur : ℚ) (ivl : ℚ)
      (h : s.running = true) :
      TStep (TLbl.completedSuccess now dur ivl) s
        { s with
            running := false
            inflight := s.inflight - 1
            successCount := s.successCount + 1
            lastRun := some now
            lastError := none
            averageDurationSeconds :=
              (s.averageDurationSeconds * (s.successCount : ℚ) + dur)
                / ((s.successCount : ℚ) + 1)
            currentIntervalSeconds := ivl }
  | completedFailure (s : TaskSt) (now : Nat) (msg : String) (ivl : ℚ)
      (h : s.running = true) :
      TStep (TLbl.completedFailure now msg ivl) s
        { s with
            running := false
            inflight := s.inflight - 1
            errorCount := s.errorCount + 1
            lastRun := some now
            lastError := some msg
            currentIntervalSeconds := ivl }

/-- Reflexive-transitive closure of the per-task transitions: the states one
task can reach over the life of the process. -/
inductive TReach : TaskSt → TaskSt → Prop where
  | refl (s : TaskSt) : TReach s s
  | tail {s t u : TaskSt} {l : TLbl} : TReach s t → TStep l t u → TReach s u

/-- Modelled from the spec: the scheduler's task store, one record per task
name. -/
structure Sched where
  tasks : String → TaskSt

/-- Modelled from the spec (section 5): one independent loop per task; a
scheduler step is a step of exactly one task's loop, all other records
unchanged. -/
inductive SStep : Sched → Sched → Prop where
  | task (s : Sched) (n : String) (l : TLbl) (t' : TaskSt)
      (h : TStep l (s.tasks n) t') :
      SStep s ⟨fun m => if m = n then t' else s.tasks m⟩

/-- Reflexive-transitive closure of scheduler steps. -/
inductive SReach : Sched → Sched → Prop where
  | refl (s : Sched) : SReach s s
  | tail {s t u : Sched} : SReach s t → SStep t u → SReach s u

/-- Modelled from the spec: scheduler state at start, every task created from
its configured base interval. -/
def schedInit (ivls : String → ℚ) : Sched :=
  ⟨fun n => initTask (ivls n)⟩

/-- Scheduler lifecycle phase (spec section 4.1). -/
inductive SchedPhase where
  | stopped
  | running
  deriving DecidableEq

/-- Modelled from the spec: process-wide lifecycle state of the bot
controller: the phase and the task store. -/
structure Lifecycle where
  phase : SchedPhase
  tasks : String → TaskSt

/-- Modelled from the spec (section 4.1, start): transitions Stopped to
Running, creating the task records from configuration; calling it while
already Running is a no-op returning the state unchanged. -/
def startSched (ivls : String → ℚ) (s : Lifecycle) : Lifecycle :=
  if s.phase = SchedPhase.running then s
  else { phase := SchedPhase.running, tasks := fun n => initTask (ivls n) }

/-- Modelled from the spec (section 4.1, stop): transitions to Stopped, task
records retained read-only; idempotent. -/
def stopSched (s : Lifecycle) : Lifecycle :=
  if s.phase = SchedPhase.stopped then s
  else { s with phase := SchedPhase.stopped }

/-- Modelled from the spec (section 6): start reports the resulting
running/stopped state to the caller. -/
def startReport (ivls : String → ℚ) (s : Lifecycle) : Lifecycle × SchedPhase :=
  ((startSched ivls s), (startSched ivls s).phase)

/-- Modelled from the spec (section 6): stop reports the resulting state. -/
def stopReport (s : Lifecycle) : Lifecycle × SchedPhase :=
  ((stopSched s), (stopSched s).phase)

/-- A JavaScript value in a numeric field as the frontend receives it:
absent (undefined), null, or a number.  Embedded for Tasks.jsx, whose
truthiness tests distinguish exactly these cases (NaN does not arise from the
JSON the backend serializes and is not modelled). -/
inductive JsNum where
  | undefinedVal
  | nullVal
  | numVal (q : ℚ)
  deriving DecidableEq

/-- JavaScript falsiness of a `JsNum`: undefined, null and 0 are falsy. -/
def jsFalsy : JsNum → Bool
  | .undefinedVal => true
  | .nullVal => true
  | .numVal q => decide (q = 0)

/-- Numeric value of a `JsNum` (only read behind a truthiness guard in the
embedded code). -/
def JsNum.toNum : JsNum → ℚ
  | .numVal q => q
  | _ => 0

/-- The JavaScript expression `x || 0`: the number itself when truthy,
otherwise 0. -/
def jsOrZero (x : JsNum) : ℚ :=
  if jsFalsy x then 0 else x.toNum

/-- One task object of the `/api/tasks` response as Tasks.jsx reads it. -/
structure TaskView where
  running : Bool
  error_count : JsNum
  success_count : JsNum
  last_run : JsNum
  avg_duration : JsNum
  deriving DecidableEq

/-- Embedded from src/frontend/src/components/Tasks.jsx (Task Overview,
Total Errors): `Object.values(tasks).reduce((sum, task) => sum +
(task.error_count || 0), 0)`. -/
def totalErrorsShown (ts : List TaskView) : ℚ :=
  ts.foldl (fun sum t => sum + jsOrZero t.error_count) 0

/-- Result of Tasks.jsx's formatTime: either the literal string Never, or the
value of `new Date(ms).toLocaleTimeString()`, modelled abstractly by the
millisecond argument passed to the Date constructor. -/
inductive ShownTime where
  | never
  | localeTimeOfMillis (ms : ℚ)
  deriving DecidableEq

/-- Embedded from src/frontend/src/components/Tasks.jsx, formatTime:
`if (!timestamp) return 'Never'; const date = new Date(timestamp * 1000);
return date.toLocaleTimeString()`. -/
def formatTime (timestamp : JsNum) : ShownTime :=
  if jsFalsy timestamp then ShownTime.never
  else ShownTime.localeTimeOfMillis (timestamp.toNum * 1000)

/-- Invariant tying a task's in-flight invocation count to its running flag:
one invocation in flight exactly while the flag is set. -/
def TaskInv (t : TaskSt) : Prop :=
  t.inflight = if t.running then 1 else 0

/-- Helper: every per-task transition preserves `TaskInv`. -/
theorem tstep_preserves_taskInv {l : TLbl} {s s' : TaskSt}
    (hInv : TaskInv s) (h : TStep l s s') : TaskInv s' := by
  cases h with
  | skipped s h => exact hInv
  | began s h =>
      unfold TaskInv at *
      rw [h] at hInv
      simp [hInv]
  | completedSuccess s now dur ivl h =>
      unfold TaskInv at *
      rw [h] at hInv
      simp [hInv]
  | completedFailure s now msg ivl h =>
      unfold TaskInv at *
      rw [h] at hInv
      simp [hInv]

/-- Helper: one scheduler step preserves `TaskInv` for every task. -/
theorem sstep_preserves_taskInv {a b : Sched} (hs : SStep a b)
    (hInv : ∀ n, TaskInv (a.tasks n)) : ∀ n, TaskInv (b.tasks n) := by
  cases hs with
  | task n l t' hstep =>
      intro m
      show TaskInv (if m = n then t' else a.tasks m)
      by_cases hm : m = n
      · rw [if_pos hm]
        exact tstep_preserves_taskInv (hInv n) hstep
      · rw [if_neg hm]
        exact hInv m

/-- Helper: `TaskInv` holds of every task in every state the scheduler can
reach from a state where it holds everywhere. -/
theorem sreach_preserves_taskInv {a b : Sched} (h : SReach a b)
    (hInv : ∀ n, TaskInv (a.tasks n)) : ∀ n, TaskInv (b.tasks n) := by
  induction h with
  | refl => exact hInv
  | tail hr hs ih => exact sstep_preserves_taskInv hs ih

/-- Helper state: a task with one invocation in flight. -/
def runningTask : TaskSt :=
  { initTask 30 with running := true, inflight := 1 }

/-- Helper state: `runningTask` after its invocation fails at time 7 with a
RetrievalError, the adapted interval staying at 30. -/
def failedOnceTask : TaskSt :=
  { runningTask with
      running := false
      inflight := runningTask.inflight - 1
      errorCount := runningTask.errorCount + 1
      lastRun := some 7
      lastError := some "RetrievalError"
      currentIntervalSeconds := 30 }

/-- C1: for every position set and configured deltaThreshold, the decision
engine sets hedgeNeeded exactly when the absolute net delta exceeds the
threshold; when hedgeNeeded it sets hedgeAmount to the absolute net delta,
hedgeDirection to sell for positive net delta and buy otherwise, and
hedgeToken to the designated hedge-target token; and on Scenario A (ETH
balance 2.0 at price 2500 with USDC balance 5000 at price 1, threshold 50)
it returns totalLpValue 10000, netDelta 5000, hedgeNeeded true, direction
sell, amount 5000. -/
theorem c1_hedge_decision :
    (∀ (cfg : EngineConfig) (ps : List Position) (st : ℚ),
        ((computeSnapshot cfg ps st).hedgeNeeded = true ↔
          cfg.deltaThreshold < abs (computeSnapshot cfg ps st).netDelta) ∧
        ((computeSnapshot cfg ps st).hedgeNeeded = true →
          (computeSnapshot cfg ps st).hedgeAmount
              = abs (computeSnapshot cfg ps st).netDelta ∧
          (computeSnapshot cfg ps st).hedgeDirection
              = some (if 0 < (computeSnapshot cfg ps st).netDelta then Direction.sell
                      else Direction.buy) ∧
          (computeSnapshot cfg ps st).hedgeToken = some cfg.hedgeToken)) ∧
    ((computeSnapshot scenarioAConfig [scenarioAPosition] 0).totalLpValue = 10000 ∧
     (computeSnapshot scenarioAConfig [scenarioAPosition] 0).netDelta = 5000 ∧
     (computeSnapshot scenarioAConfig [scenarioAPosition] 0).hedgeNeeded = true ∧
     (computeSnapshot scenarioAConfig [scenarioAPosition] 0).hedgeDirection
        = some Direction.sell ∧
     (computeSnapshot scenarioAConfig [scenarioAPosition] 0).hedgeAmount = 5000) := by
  constructor
  · intro cfg ps st
    constructor
    · simp [computeSnapshot]
    · intro h
      have h' : decide (cfg.deltaThreshold < abs (netDelta cfg ps)) = true := h
      refine ⟨?_, ?_, ?_⟩ <;> simp [computeSnapshot, h']
  · refine ⟨?_, ?_, ?_, ?_, ?_⟩ <;>
      norm_num [computeSnapshot, scenarioAConfig, scenarioAPosition, netDelta,
        tokenExposure, legExposure, totalLpValue, Position.totalUsdValue,
        TokenLeg.usdValue, headToken0Exposure, headToken1Exposure,
        show ("USDC" : String) ≠ "ETH" from by decide,
        show ("ETH" : String) ≠ "USDC" from by decide]

/-- Witness for C1: the hedge-amount clause applied at Scenario A, where the
hedge is needed. -/
theorem c1_hedge_decision_witness :
    (computeSnapshot scenarioAConfig [scenarioAPosition] 0).hedgeAmount
      = abs (computeSnapshot scenarioAConfig [scenarioAPosition] 0).netDelta :=
  ((c1_hedge_decision.1 scenarioAConfig [scenarioAPosition] 0).2
    (by norm_num [computeSnapshot, scenarioAConfig, scenarioAPosition, netDelta,
      tokenExposure, legExposure,
      show ("USDC" : String) ≠ "ETH" from by decide])).1

/-- C2: whenever the decision engine runs while the position cache is empty
(no successful refresh yet), it fails with DataUnavailableError and publishes
no DeltaSnapshot: the state, including the previously published snapshot, is
left unchanged. -/
theorem c2_data_unavailable (cfg : EngineConfig) (st : ℚ) (b : BotState)
    (h : b.positionCache = none) :
    (recomputeDelta cfg st b).2 = Except.error EngineError.dataUnavailable ∧
    (recomputeDelta cfg st b).1 = b := by
  simp [recomputeDelta, h]

/-- Witness for C2: the engine invoked on the concrete empty-cache state. -/
theorem c2_data_unavailable_witness :
    (recomputeDelta scenarioAConfig 0
        { positionCache := none, publishedSnapshot := none }).2
      = Except.error EngineError.dataUnavailable ∧
    (recomputeDelta scenarioAConfig 0
        { positionCache := none, publishedSnapshot := none }).1
      = { positionCache := none, publishedSnapshot := none } :=
  c2_data_unavailable scenarioAConfig 0
    { positionCache := none, publishedSnapshot := none } rfl

/-- C3: the confidence of every produced DeltaSnapshot lies in the closed
interval from 0 to 1, and equals exactly 0 when the position set is empty. -/
theorem c3_confidence_bounds (cfg : EngineConfig) (ps : List Position) (st : ℚ) :
    0 ≤ (computeSnapshot cfg ps st).confidence ∧
    (computeSnapshot cfg ps st).confidence ≤ 1 ∧
    (ps = [] → (computeSnapshot cfg ps st).confidence = 0) := by
  refine ⟨?_, ?_, ?_⟩
  · show 0 ≤ confidence ps st
    unfold confidence clamp01
    split
    · exact le_refl 0
    · exact le_max_left 0 _
  · show confidence ps st ≤ 1
    unfold confidence clamp01
    split
    · exact zero_le_one
    · exact max_le zero_le_one (min_le_left 1 _)
  · intro h
    subst h
    rfl

/-- Witness for C3: bounds and the empty-set clause at the empty position
list. -/
theorem c3_confidence_bounds_witness :
    0 ≤ (computeSnapshot scenarioAConfig [] 0).confidence ∧
    (computeSnapshot scenarioAConfig [] 0).confidence = 0 :=
  ⟨(c3_confidence_bounds scenarioAConfig [] 0).1,
   (c3_confidence_bounds scenarioAConfig [] 0).2.2 rfl⟩

/-- C4: for every task name, at every reachable point of the scheduler's
execution, at most one invocation of that task is in flight: the in-flight
count never reaches 2, so two overlapping running intervals of the same task
are never observed. -/
theorem c4_no_overlapping_invocations (ivls : String → ℚ) (s : Sched)
    (h : SReach (schedInit ivls) s) :
    ∀ n, (s.tasks n).inflight ≤ 1 := by
  have hInit : ∀ n, TaskInv ((schedInit ivls).tasks n) := fun n => rfl
  intro n
  have hInv := sreach_preserves_taskInv h hInit n
  unfold TaskInv at hInv
  rw [hInv]
  split <;> norm_num

/-- Witness for C4: the invariant instantiated at the initial scheduler state
reached by the empty run. -/
theorem c4_no_overlapping_invocations_witness :
    (((schedInit fun _ => 30)).tasks "recompute_delta").inflight ≤ 1 :=
  c4_no_overlapping_invocations (fun _ => 30) (schedInit fun _ => 30)
    (SReach.refl (schedInit fun _ => 30)) "recompute_delta"

/-- C5: every failed (or timed-out) invocation increments errorCount by 1,
sets lastError to the failure message and lastRun to now, leaves
averageDurationSeconds unchanged, clears running, and leaves the task
scheduled (a next tick can begin); and from a fresh task, three consecutive
RetrievalError ticks reach a state with errorCount 3 and running false from
which a fourth tick still begins without intervention. -/
theorem c5_failure_keeps_task_scheduled :
    (∀ (s s' : TaskSt) (now : Nat) (msg : String) (ivl : ℚ),
        TStep (TLbl.completedFailure now msg ivl) s s' →
        s'.errorCount = s.errorCount + 1 ∧
        s'.lastError = some msg ∧
        s'.lastRun = some now ∧
        s'.averageDurationSeconds = s.averageDurationSeconds ∧
        s'.running = false ∧
        ∃ s'', TStep TLbl.began s' s'') ∧
    (∃ s3 : TaskSt,
        TReach (initTask 30) s3 ∧
        s3.errorCount = 3 ∧
        s3.running = false ∧
        ∃ s4, TStep TLbl.began s3 s4) := by
  constructor
  · intro s s' now msg ivl h
    cases h with
    | completedFailure s now msg ivl hrun =>
        exact ⟨rfl, rfl, rfl, rfl, rfl, ⟨_, TStep.began _ rfl⟩⟩
  · exact ⟨_, TReach.tail (TReach.tail (TReach.tail (TReach.tail (TReach.tail (TReach.tail
      (TReach.refl (initTask 30))
      (TStep.began _ rfl))
      (TStep.completedFailure _ 1 "RetrievalError" 30 rfl))
      (TStep.began _ rfl))
      (TStep.completedFailure _ 2 "RetrievalError" 30 rfl))
      (TStep.began _ rfl))
      (TStep.completedFailure _ 3 "RetrievalError" 30 rfl),
      rfl, rfl, ⟨_, TStep.began _ rfl⟩⟩

/-- Witness for C5: the failure clause applied to a concrete failing
invocation of a task with one invocation in flight. -/
theorem c5_failure_keeps_task_scheduled_witness :
    failedOnceTask.errorCount = runningTask.errorCount + 1 ∧
    failedOnceTask.averageDurationSeconds = runningTask.averageDurationSeconds ∧
    failedOnceTask.running = false :=
  have h := (c5_failure_keeps_task_scheduled.1 runningTask failedOnceTask
    7 "RetrievalError" 30 (TStep.completedFailure runningTask 7 "RetrievalError" 30 rfl))
  ⟨h.1, h.2.2.2.1, h.2.2.2.2.1⟩

/-- Helper: one per-task transition changes the combined success and error
count by exactly 1 when it completes a tick and by 0 otherwise. -/
theorem tstep_count_eq {l : TLbl} {s s' : TaskSt} (h : TStep l s s') :
    s'.successCount + s'.errorCount
      = s.successCount + s.errorCount + (if l.isCompleted then 1 else 0) := by
  cases h <;> simp [TLbl.isCompleted] <;> omega

/-- Helper: one scheduler step never decreases any task's combined count. -/
theorem sstep_count_mono {a b : Sched} (hs : SStep a b) (n : String) :
    (a.tasks n).successCount + (a.tasks n).errorCount
      ≤ (b.tasks n).successCount + (b.tasks n).errorCount := by
  cases hs with
  | task m l t' hstep =>
      show _ ≤ (if n = m then t' else a.tasks n).successCount
                + (if n = m then t' else a.tasks n).errorCount
      by_cases hn : n = m
      · rw [if_pos hn]
        subst hn
        rw [tstep_count_eq hstep]
        exact Nat.le_add_right _ _
      · rw [if_neg hn]

/-- C6: a task's successCount plus errorCount never decreases over the life
of the process, and a single transition increases it by exactly 1 when it
completes a tick (success or failure) and by 0 otherwise -- in particular a
skipped tick increments neither count. -/
theorem c6_tick_count_monotone :
    (∀ (l : TLbl) (s s' : TaskSt), TStep l s s' →
        s'.successCount + s'.errorCount
          = s.successCount + s.errorCount + (if l.isCompleted then 1 else 0)) ∧
    (∀ (a b : Sched), SReach a b →
        ∀ n, (a.tasks n).successCount + (a.tasks n).errorCount
              ≤ (b.tasks n).successCount + (b.tasks n).errorCount) := by
  refine ⟨fun l s s' h => tstep_count_eq h, ?_⟩
  intro a b h
  induction h with
  | refl => intro n; exact le_refl _
  | tail hr hs ih =>
      intro n
      exact le_trans (ih n) (sstep_count_mono hs n)

/-- Witness for C6: the exact-increment clause applied to a concrete failing
tick, which completes and adds exactly one to the combined count. -/
theorem c6_tick_count_monotone_witness :
    failedOnceTask.successCount + failedOnceTask.errorCount
      = runningTask.successCount + runningTask.errorCount + 1 :=
  c6_tick_count_monotone.1 (TLbl.completedFailure 7 "RetrievalError" 30)
    runningTask failedOnceTask
    (TStep.completedFailure runningTask 7 "RetrievalError" 30 rfl)

/-- C7: start and stop are idempotent -- applying either twice yields the
same lifecycle state as applying it once -- and start invoked while already
Running is a no-op that reports the Running state rather than erroring. -/
theorem c7_start_stop_idempotent (ivls : String → ℚ) (s : Lifecycle) :
    startSched ivls (startSched ivls s) = startSched ivls s ∧
    stopSched (stopSched s) = stopSched s ∧
    (s.phase = SchedPhase.running →
      startSched ivls s = s ∧ (startReport ivls s).2 = SchedPhase.running) := by
  refine ⟨?_, ?_, ?_⟩
  · by_cases h : s.phase = SchedPhase.running
    · simp [startSched, h]
    · simp [startSched, h]
  · by_cases h : s.phase = SchedPhase.stopped
    · simp [stopSched, h]
    · simp [stopSched, h]
  · intro h
    constructor
    · simp [startSched, h]
    · simp [startReport, startSched, h]

/-- Witness for C7: the no-op clause at a concrete already-running
lifecycle state. -/
theorem c7_start_stop_idempotent_witness :
    startSched (fun _ => 30)
        { phase := SchedPhase.running, tasks := fun _ => initTask 30 }
      = { phase := SchedPhase.running, tasks := fun _ => initTask 30 } ∧
    (startReport (fun _ => 30)
        { phase := SchedPhase.running, tasks := fun _ => initTask 30 }).2
      = SchedPhase.running :=
  (c7_start_stop_idempotent (fun _ => 30)
    { phase := SchedPhase.running, tasks := fun _ => initTask 30 }).2.2 rfl

/-- The specification-side value for C8, following the claim's words: the sum
over all tasks of their error count field, a task with a missing field
contributing 0. -/
def specTotalErrors (ts : List TaskView) : ℚ :=
  (ts.map (fun t =>
    match t.error_count with
    | JsNum.numVal q => q
    | _ => 0)).sum

/-- Helper: folding addition of a projection from an accumulator equals the
accumulator plus the sum of the mapped list. -/
theorem foldl_add_eq_add_sum (f : TaskView → ℚ) (ts : List TaskView) (a : ℚ) :
    ts.foldl (fun sum t => sum + f t) a = a + (ts.map f).sum := by
  induction ts generalizing a with
  | nil => simp
  | cons t ts ih =>
      simp only [List.foldl_cons, List.map_cons, List.sum_cons, ih]
      ring

/-- Helper: the JavaScript idiom `x || 0` on a numeric field yields the
number when present and 0 when the field is absent or null. -/
theorem jsOrZero_eq (x : JsNum) :
    jsOrZero x = match x with
      | JsNum.numVal q => q
      | _ => 0 := by
  cases x with
  | undefinedVal => rfl
  | nullVal => rfl
  | numVal q =>
      by_cases h : q = 0 <;> simp [jsOrZero, jsFalsy, JsNum.toNum, h]

/-- C8: the Task Monitoring view's Total Errors figure equals the sum over
all tasks of their error count field, where a task with a missing field
contributes 0. -/
theorem c8_total_errors (ts : List TaskView) :
    totalErrorsShown ts = specTotalErrors ts := by
  unfold totalErrorsShown specTotalErrors
  rw [foldl_add_eq_add_sum, zero_add]
  have hmap : ∀ us : List TaskView,
      List.map (fun t => jsOrZero t.error_count) us
        = List.map (fun t =>
            match t.error_count with
            | JsNum.numVal q => q
            | _ => 0) us := by
    intro us
    induction us with
    | nil => rfl
    | cons t us ih => simp only [List.map_cons, ih, jsOrZero_eq]
  rw [hmap]

/-- C9: formatTime returns Never for every falsy last run value (absent,
null, or the timestamp 0) and a locale time string of the corresponding
millisecond instant for every other timestamp. -/
theorem c9_format_time :
    (∀ t : JsNum, jsFalsy t = true → formatTime t = ShownTime.never) ∧
    (∀ q : ℚ, q ≠ 0 →
        formatTime (JsNum.numVal q) = ShownTime.localeTimeOfMillis (q * 1000)) := by
  constructor
  · intro t h
    simp [formatTime, h]
  · intro q h
    simp [formatTime, jsFalsy, JsNum.toNum, h]

/-- Witness for C9: the absent, null and zero timestamps render as Never,
and the timestamp 5 renders as a locale time string. -/
theorem c9_format_time_witness :
    formatTime JsNum.undefinedVal = ShownTime.never ∧
    formatTime JsNum.nullVal = ShownTime.never ∧
    formatTime (JsNum.numVal 0) = ShownTime.never ∧
    formatTime (JsNum.numVal 5) = ShownTime.localeTimeOfMillis (5 * 1000) :=
  ⟨c9_format_time.1 JsNum.undefinedVal rfl,
   c9_format_time.1 JsNum.nullVal rfl,
   c9_format_time.1 (JsNum.numVal 0) (by simp [jsFalsy]),
   c9_format_time.2 5 (by norm_num)⟩

end HedgeBot
